import Mathlib

/-!
Verification development for the `agent2agent` repository: shallow embedding
of the tool functions in `run_ass2a.py` and `run_ass2b.py`, of the loop /
parallel / retry / resumable-execution semantics of the orchestration layer,
and proofs of the testable properties of the design spec.

Python strings are modelled as lists of Unicode codepoints (`List Nat`);
Python ints as `Int`; the decimal float literals of the fee / rate databases
as exact rationals (`ℚ`).
-/

/-- Codepoints of a string literal (the `List Nat` model of a Python `str`). -/
def strCodes (s : String) : List Nat :=
  s.data.map Char.toNat

/-- One character of Python `str.lower`, restricted to the ASCII range, which
covers every key of the lookup databases in `run_ass2a.py`: codepoints 65-90
(the uppercase letters) map 32 higher, everything else is fixed. -/
def lowerChar (c : Nat) : Nat :=
  if 65 ≤ c ∧ c ≤ 90 then c + 32 else c

/-- Model of Python `str.lower` on codepoint lists. -/
def pyLower (s : List Nat) : List Nat :=
  s.map lowerChar

/-- Decimal digits of a natural number, as codepoints (Python `str(n)`). -/
def natToCodes (n : Nat) : List Nat :=
  (Nat.toDigits 10 n).map Char.toNat

/-- Python `str(i)` for an int: a minus sign (codepoint 45) before the digits
of the absolute value when `i` is negative. -/
def intToCodes (i : Int) : List Nat :=
  if i < 0 then 45 :: natToCodes (-i).toNat else natToCodes i.toNat

/-- Python `dict.get`: first value bound to the key in an association list. -/
def dictGet {α : Type} : List (List Nat × α) → List Nat → Option α
  | [], _ => none
  | (k, v) :: rest, key => if k = key then some v else dictGet rest key

/-- Result dict of the lookup tools of `run_ass2a.py`: either
`{"status": "success", <numeric field>: q}` or
`{"status": "error", "error_message": msg}`. -/
inductive LookupResult : Type
  | success (q : ℚ)
  | error (msg : List Nat)
deriving DecidableEq

/-- The `"status"` field of a lookup-tool result dict. -/
def statusCodes : LookupResult → List Nat
  | .success _ => strCodes "success"
  | .error _ => strCodes "error"

/-- `fee_database` of `run_ass2a.py` (decimal literals as exact rationals:
0.02, 0.035, 0.01). -/
def fee_database : List (List Nat × ℚ) :=
  [(strCodes "platinum credit card", 2/100),
   (strCodes "gold debit card", 35/1000),
   (strCodes "bank transfer", 1/100)]

/-- `get_fee_for_payment_method` of `run_ass2a.py`: looks up
`fee_database.get(method.lower())`; on a miss the error message interpolates
the original (uncased) `method` between apostrophes (codepoint 39). -/
def get_fee_for_payment_method (method : List Nat) : LookupResult :=
  match dictGet fee_database (pyLower method) with
  | some fee => .success fee
  | none =>
      .error (strCodes "Payment method " ++ [39] ++ method ++ [39] ++
        strCodes " not found")

/-- `rate_database` of `run_ass2a.py` (0.93, 157.50, 83.58 as exact
rationals). -/
def rate_database : List (List Nat × List (List Nat × ℚ)) :=
  [(strCodes "usd",
    [(strCodes "eur", 93/100),
     (strCodes "jpy", 315/2),
     (strCodes "inr", 4179/50)])]

/-- `get_exchange_rate` of `run_ass2a.py`: nested lookup
`rate_database.get(base, {}).get(target)` on the lowercased codes; on a miss
the error message interpolates the original arguments. -/
def get_exchange_rate (base_currency target_currency : List Nat) : LookupResult :=
  match dictGet ((dictGet rate_database (pyLower base_currency)).getD [])
      (pyLower target_currency) with
  | some rate => .success rate
  | none =>
      .error (strCodes "Unsupported currency pair: " ++ base_currency ++
        strCodes "/" ++ target_currency)

/-- The ADK `ToolConfirmation` object carried by a resumed tool call: just the
human decision, as used by `request_bulk_approval` in `run_ass2b.py`. -/
structure ToolConfirmation : Type where
  confirmed : Bool
deriving DecidableEq

/-- A confirmation request recorded by `tool_context.request_confirmation`
(the hint text and the `{"num_images": n}` payload). -/
structure ConfirmationRequest : Type where
  hint : List Nat
  payload_num_images : Int
deriving DecidableEq

/-- The `"status"` values of the approval dict of `request_bulk_approval`. -/
inductive ApprovalStatus : Type
  | approved
  | pending
  | rejected
deriving DecidableEq

/-- The result dict of `request_bulk_approval`:
`{"status": ..., "message": ...}`. -/
structure ApprovalResult : Type where
  status : ApprovalStatus
  message : List Nat
deriving DecidableEq

/-- `request_bulk_approval` of `run_ass2b.py`. The input `tc` models
`tool_context.tool_confirmation` (`none` on a first call, `some` on a resumed
call); the second component of the output models the side effect of
`tool_context.request_confirmation` (`some` exactly when a confirmation was
requested). -/
def request_bulk_approval (num_images : Int) (tc : Option ToolConfirmation) :
    ApprovalResult × Option ConfirmationRequest :=
  if num_images ≤ 1 then
    (⟨.approved, strCodes "Auto-approved for " ++ intToCodes num_images ++
       strCodes " image."⟩, none)
  else
    match tc with
    | none =>
        (⟨.pending, strCodes "Order for " ++ intToCodes num_images ++
           strCodes " images requires approval."⟩,
         some ⟨strCodes "⚠️ Bulk Order: " ++ intToCodes num_images ++
           strCodes " images requested. Approve cost?", num_images⟩)
    | some conf =>
        if conf.confirmed then
          (⟨.approved, strCodes "Human approved " ++ intToCodes num_images ++
             strCodes " images."⟩, none)
        else
          (⟨.rejected, strCodes "Human rejected " ++ intToCodes num_images ++
             strCodes " images."⟩, none)

/-- Modelled from the spec: the error kind of §7 for a resume call whose
invocation id is unknown, stale or already resolved (the ADK resumable-app
machinery behind `Runner.run_async(..., invocation_id=...)` is not under
`src/`). -/
inductive ResumeError : Type
  | invalidResumption
deriving DecidableEq

/-- Modelled from the spec: state of the Resumable Execution Coordinator of
§4.5 for the image workflow of `run_ass2b.py` — the pending Suspension
Records (invocation id paired with the `num_images` of the suspended
`request_bulk_approval` call), the appended-only log of invoked tool names,
and the next fresh invocation id. -/
structure EngineState : Type where
  pendingSusp : List (Nat × Int)
  toolCalls : List (List Nat)
  nextInvId : Nat
deriving DecidableEq

/-- Modelled from the spec: outcome of one engine run — terminal completion
with the agent's final message, or suspension carrying the invocation id. -/
inductive RunResult : Type
  | completed (finalMessage : List Nat)
  | suspended (invocationId : Nat)
deriving DecidableEq

/-- First pending suspension bound to an invocation id. -/
def lookupSusp : List (Nat × Int) → Nat → Option Int
  | [], _ => none
  | (i, n) :: rest, invId => if i = invId then some n else lookupSusp rest invId

/-- Remove (consume) every pending suspension bound to an invocation id. -/
def removeSusp : List (Nat × Int) → Nat → List (Nat × Int)
  | [], _ => []
  | (i, n) :: rest, invId =>
      if i = invId then removeSusp rest invId
      else (i, n) :: removeSusp rest invId

/-- Modelled from the spec: the approval step of the image workflow of
`run_ass2b.py` — the engine invokes `request_bulk_approval`; if the tool
requested a confirmation the run suspends with a fresh invocation id and a
new Suspension Record (§4.5); otherwise an approved result leads to the
`getTinyImage` call and the final message dictated by the agent instruction
(step 8: "Here is your image."), and any other result completes with the
tool's message and without invoking `getTinyImage`. -/
def handleApproval (num_images : Int) (tc : Option ToolConfirmation)
    (st : EngineState) : RunResult × EngineState :=
  let rr := request_bulk_approval num_images tc
  let st1 : EngineState :=
    { st with toolCalls := st.toolCalls ++ [strCodes "request_bulk_approval"] }
  match rr.2 with
  | some _ =>
      (.suspended st1.nextInvId,
       { st1 with
          pendingSusp := (st1.nextInvId, num_images) :: st1.pendingSusp,
          nextInvId := st1.nextInvId + 1 })
  | none =>
      match rr.1.status with
      | .approved =>
          (.completed (strCodes "Here is your image."),
           { st1 with toolCalls := st1.toolCalls ++ [strCodes "getTinyImage"] })
      | _ => (.completed rr.1.message, st1)

/-- Modelled from the spec: the initial run of the image workflow, following
the CRITICAL WORKFLOW of `exercise_agent` in `run_ass2b.py` — `num_images = 1`
calls `getTinyImage` directly; `num_images > 1` goes through
`request_bulk_approval` first; the instruction leaves requests for fewer than
one image unspecified, and the model completes them with no tool call. -/
def run_image_workflow_start (num_images : Int) (st : EngineState) :
    RunResult × EngineState :=
  if num_images = 1 then
    (.completed (strCodes "Here is your image."),
     { st with toolCalls := st.toolCalls ++ [strCodes "getTinyImage"] })
  else if 1 < num_images then
    handleApproval num_images none st
  else
    (.completed (strCodes "Please request at least one image."), st)

/-- Modelled from the spec: `resume(invocation_id, decision)` of §4.5 — an
unknown, stale or already-resolved invocation id fails with
`InvalidResumption` (and, the error carrying no state, nothing is executed);
otherwise the Suspension Record is consumed (single-use) and the suspended
`request_bulk_approval` call is resumed with the decision injected as its
`ToolConfirmation`. -/
def resumeWorkflow (invId : Nat) (confirmed : Bool) (st : EngineState) :
    Except ResumeError (RunResult × EngineState) :=
  match lookupSusp st.pendingSusp invId with
  | none => .error .invalidResumption
  | some num_images =>
      .ok (handleApproval num_images (some ⟨confirmed⟩)
        { st with pendingSusp := removeSusp st.pendingSusp invId })

/-- Modelled from the spec: the comparison run of the suspend/resume
round-trip property of §8 — the same workflow in which the approval tool
synchronously returns the approved outcome (its `ToolConfirmation` is already
`confirmed = true`, so no suspension occurs). -/
def run_image_workflow_sync_approved (num_images : Int) (st : EngineState) :
    RunResult × EngineState :=
  if num_images = 1 then
    (.completed (strCodes "Here is your image."),
     { st with toolCalls := st.toolCalls ++ [strCodes "getTinyImage"] })
  else if 1 < num_images then
    handleApproval num_images (some ⟨true⟩) st
  else
    (.completed (strCodes "Please request at least one image."), st)

/-- The empty engine state at session creation. -/
def emptyEngine : EngineState :=
  ⟨[], [], 0⟩

/-- A `{"status": ..., "message": ...}` dict with a string status, as returned
by `exit_loop` in `run_ass1b.py`. -/
structure StatusMessage : Type where
  status : List Nat
  message : List Nat
deriving DecidableEq

/-- `exit_loop` of `run_ass1b.py`: the explicit termination-signal tool of the
story-refinement loop. -/
def exit_loop : StatusMessage :=
  ⟨strCodes "approved", strCodes "Story approved. Exiting refinement loop."⟩

/-- `max_iterations` of `story_refinement_loop` in `run_ass1b.py`. -/
def story_refinement_max_iterations : Nat := 2

/-- One cycle of the story-refinement loop of `run_ass1b.py` (critic then
refiner): the critic produces a critique of the current story; if the
critique is exactly "APPROVED" the refiner calls `exit_loop` (the termination
signal) and the story is unchanged, otherwise the refiner rewrites the story
incorporating the critique and no signal is emitted. -/
def storyCycle (critic : List Nat → List Nat)
    (refine : List Nat → List Nat → List Nat) (story : List Nat) :
    List Nat × Option StatusMessage :=
  let critique := critic story
  if critique = strCodes "APPROVED" then (story, some exit_loop)
  else (refine story critique, none)

/-- Modelled from the spec: the Loop orchestrator of §4.4 (the `LoopAgent`
behind `story_refinement_loop` is not under `src/`). `step` runs one cycle of
the child sequence over the shared state and reports the termination signal
emitted during that cycle, if any; the loop runs up to `max_iterations`
cycles and stops early at the first signal. Returns the final state and the
number of cycles executed. -/
def runLoop {σ : Type} (step : σ → σ × Option StatusMessage) :
    Nat → σ → σ × Nat
  | 0, s => (s, 0)
  | n + 1, s =>
      let r := step s
      if (r.2).isSome then (r.1, 1)
      else
        let rest := runLoop step n r.1
        (rest.1, rest.2 + 1)

/-- The shared key-value state written by agents through their output keys
(§4.1), as an association list from key codepoints to value codepoints. -/
abbrev StateMap : Type := List (List Nat × List Nat)

/-- `set(key, value)` of the Shared State Store (§4.1): idempotent overwrite
of the first binding of the key, appending a fresh binding when absent. -/
def setKey : StateMap → List Nat → List Nat → StateMap
  | [], k, v => [(k, v)]
  | (k0, v0) :: rest, k, v =>
      if k0 = k then (k, v) :: rest else (k0, v0) :: setKey rest k v

/-- A child of a Parallel group: its declared output key and the value it
produces from the snapshot it reads (`tech_researcher`, `health_researcher`
and `finance_researcher` of `run_ass1b.py` each write one output key from the
shared state they were given). -/
structure ParallelChild : Type where
  output_key : List Nat
  produce : StateMap → List Nat

/-- The delta a child contributes: its output key and produced value, read
from the fan-out snapshot only (children never observe each other, §3). -/
def childDelta (snapshot : StateMap) (c : ParallelChild) : List Nat × List Nat :=
  (c.output_key, c.produce snapshot)

/-- Modelled from the spec: the completion log of a Parallel fan-out — the
children finish in real-time completion order `order` (a list of declaration
indices), each recording its index and delta computed from the shared
snapshot. -/
def completionLog (snapshot : StateMap) (children : List ParallelChild)
    (order : List Nat) : List (Nat × (List Nat × List Nat)) :=
  order.filterMap (fun i => (children[i]?).map (fun c => (i, childDelta snapshot c)))

/-- First delta recorded for a declaration index in a completion log. -/
def lookupLog : List (Nat × (List Nat × List Nat)) → Nat →
    Option (List Nat × List Nat)
  | [], _ => none
  | (i, d) :: rest, j => if i = j then some d else lookupLog rest j

/-- Merge recorded deltas into the state in the given index order. -/
def mergeFold (st : StateMap) : List Nat →
    List (Nat × (List Nat × List Nat)) → StateMap
  | [], _ => st
  | i :: rest, log =>
      match lookupLog log i with
      | some d => mergeFold (setKey st d.1 d.2) rest log
      | none => mergeFold st rest log

/-- Modelled from the spec: `merge(delta)` of §4.1 applied when a Parallel
group completes — the recorded deltas are merged into the snapshot in
deterministic child-declaration order (`List.range children.length`), not in
completion order. -/
def mergeParallel (snapshot : StateMap) (children : List ParallelChild)
    (log : List (Nat × (List Nat × List Nat))) : StateMap :=
  mergeFold snapshot (List.range children.length) log

/-- Modelled from the spec: a full Parallel fan-out (§4.4) — snapshot the
state, let the children complete in real-time order `order`, then merge in
declaration order. -/
def runParallel (snapshot : StateMap) (children : List ParallelChild)
    (order : List Nat) : StateMap :=
  mergeParallel snapshot children (completionLog snapshot children order)

/-- `HttpRetryOptions` as configured in `run_ass1b.py` (`RETRY_CONFIG`) and
`run_ass2b.py` / `run_ass2a.py` (`retry_config`). -/
structure HttpRetryOptions : Type where
  attempts : Nat
  exp_base : Nat
  initial_delay : Nat
  http_status_codes : List Nat
deriving DecidableEq

/-- `RETRY_CONFIG` of `run_ass1b.py`. -/
def RETRY_CONFIG : HttpRetryOptions :=
  ⟨5, 7, 1, [429, 500, 503, 504]⟩

/-- `retry_config` of `run_ass2a.py` and `run_ass2b.py` (the same values). -/
def retry_config : HttpRetryOptions :=
  ⟨5, 7, 1, [429, 500, 503, 504]⟩

/-- The result of one attempted HTTP call: a value or an HTTP status code. -/
inductive AttemptResult : Type
  | ok (v : Nat)
  | httpError (code : Nat)
deriving DecidableEq

/-- Modelled from the spec: the surfaced outcome of the retrying Tool
Invocation Layer of §4.2 — success, `Failure(kind=exhausted-retries)`, or an
immediately propagated non-retryable failure. -/
inductive RetryOutcome : Type
  | success (v : Nat)
  | exhaustedRetries
  | nonRetryableFailure (code : Nat)
deriving DecidableEq

/-- Modelled from the spec: sleep before retry number `r` (1-indexed), equal
to `initial_delay * exp_base^(r-1)` per §4.2. -/
def retryDelay (cfg : HttpRetryOptions) (r : Nat) : Nat :=
  cfg.initial_delay * cfg.exp_base ^ (r - 1)

/-- Trace of a retried invocation: the surfaced outcome, the backoff delays
slept between attempts, and the attempt numbers actually performed. -/
structure RetryTrace : Type where
  outcome : RetryOutcome
  delays : List Nat
  attemptsMade : List Nat
deriving DecidableEq

/-- Modelled from the spec: the retry loop of §4.2, performing attempts
numbered from `attemptNo` while `remaining` attempts are allowed. A failure
whose status code is in the retryable set is retried (after the backoff
delay) until the attempt budget is exhausted; any other failure propagates
immediately. -/
def retryGo (cfg : HttpRetryOptions) (call : Nat → AttemptResult) :
    Nat → Nat → RetryTrace
  | 0, _ => ⟨.exhaustedRetries, [], []⟩
  | remaining + 1, attemptNo =>
      match call attemptNo with
      | .ok v => ⟨.success v, [], [attemptNo]⟩
      | .httpError code =>
          if code ∈ cfg.http_status_codes then
            if remaining = 0 then ⟨.exhaustedRetries, [], [attemptNo]⟩
            else
              let rest := retryGo cfg call remaining (attemptNo + 1)
              ⟨rest.outcome, retryDelay cfg attemptNo :: rest.delays,
               attemptNo :: rest.attemptsMade⟩
          else ⟨.nonRetryableFailure code, [], [attemptNo]⟩

/-- Modelled from the spec: `invoke` of the Tool Invocation Layer (§4.2) with
the bounded-retry policy `cfg`: up to `cfg.attempts` attempts of `call`. -/
def invokeWithRetry (cfg : HttpRetryOptions) (call : Nat → AttemptResult) :
    RetryTrace :=
  retryGo cfg call cfg.attempts 1

/-- The three researcher children of `parallel_research_team` in
`run_ass1b.py`, reduced to their declared output keys (used to instantiate the
Parallel determinism property on the concrete group of the source). -/
def researchTeamChildren : List ParallelChild :=
  [⟨strCodes "tech_research", fun _ => strCodes "tech report"⟩,
   ⟨strCodes "health_research", fun _ => strCodes "health report"⟩,
   ⟨strCodes "finance_research", fun _ => strCodes "finance report"⟩]

theorem lowerChar_idem (c : Nat) : lowerChar (lowerChar c) = lowerChar c := by
  unfold lowerChar
  split_ifs <;> omega

theorem pyLower_idem (s : List Nat) : pyLower (pyLower s) = pyLower s := by
  induction s with
  | nil => rfl
  | cons a s ih =>
      simp only [pyLower, List.map_cons] at ih ⊢
      rw [lowerChar_idem, ih]

theorem request_bulk_approval_resumed_no_request (n : Int)
    (conf : ToolConfirmation) :
    (request_bulk_approval n (some conf)).2 = none := by
  obtain ⟨b⟩ := conf
  unfold request_bulk_approval
  split_ifs with h
  · rfl
  · cases b <;> rfl

theorem handleApproval_resumed_pendingSusp (n : Int) (conf : ToolConfirmation)
    (s : EngineState) :
    (handleApproval n (some conf) s).2.pendingSusp = s.pendingSusp := by
  simp only [handleApproval, request_bulk_approval_resumed_no_request]
  cases (request_bulk_approval n (some conf)).1.status <;> rfl

theorem lookupSusp_removeSusp (l : List (Nat × Int)) (invId : Nat) :
    lookupSusp (removeSusp l invId) invId = none := by
  induction l with
  | nil => rfl
  | cons p rest ih =>
      obtain ⟨i, n⟩ := p
      unfold removeSusp
      split_ifs with hi
      · exact ih
      · unfold lookupSusp
        rw [if_neg hi]
        exact ih

theorem runLoop_no_signal {σ : Type} (step : σ → σ × Option StatusMessage)
    (h : ∀ s, (step s).2 = none) :
    ∀ (n : Nat) (s : σ), (runLoop step n s).2 = n := by
  intro n
  induction n with
  | zero => intro s; rfl
  | succ n ih =>
      intro s
      simp only [runLoop]
      simp [h s, ih]

theorem completionLog_cons (snapshot : StateMap) (children : List ParallelChild)
    (j : Nat) (rest : List Nat) :
    completionLog snapshot children (j :: rest) =
      match children[j]? with
      | some c => (j, childDelta snapshot c) :: completionLog snapshot children rest
      | none => completionLog snapshot children rest := by
  cases hc : children[j]? <;> simp [completionLog, hc]

theorem lookupLog_completionLog (snapshot : StateMap)
    (children : List ParallelChild) (order : List Nat) (i : Nat)
    (hi : i < children.length) (hmem : i ∈ order) :
    lookupLog (completionLog snapshot children order) i =
      (children[i]?).map (childDelta snapshot) := by
  induction order with
  | nil => cases hmem
  | cons j rest ih =>
      rw [completionLog_cons]
      by_cases hj : j = i
      · subst hj
        have hc : children[j]? = some (children[j]) := List.getElem?_eq_getElem hi
        rw [hc]
        simp [lookupLog]
      · have hmem2 : i ∈ rest := by
          rcases List.mem_cons.mp hmem with h | h
          · exact absurd h.symm hj
          · exact h
        cases hc : children[j]? with
        | none => exact ih hmem2
        | some c =>
            simp only [lookupLog, if_neg hj]
            exact ih hmem2

theorem mergeFold_log_congr (log1 log2 : List (Nat × (List Nat × List Nat)))
    (l : List Nat) (h : ∀ i ∈ l, lookupLog log1 i = lookupLog log2 i) :
    ∀ st : StateMap, mergeFold st l log1 = mergeFold st l log2 := by
  induction l with
  | nil => intro st; rfl
  | cons a rest ih =>
      intro st
      have ha := h a (List.mem_cons_self a rest)
      have hrest : ∀ i ∈ rest, lookupLog log1 i = lookupLog log2 i :=
        fun i hi => h i (List.mem_cons_of_mem _ hi)
      simp only [mergeFold, ha]
      cases lookupLog log2 a with
      | none => exact ih hrest st
      | some d => exact ih hrest _

theorem retryGo_all_fail (cfg : HttpRetryOptions) (call : Nat → AttemptResult)
    (code : Nat) (hall : ∀ k, call k = .httpError code)
    (hmem : code ∈ cfg.http_status_codes) :
    ∀ (remaining attemptNo : Nat),
      retryGo cfg call remaining attemptNo =
        ⟨.exhaustedRetries,
         (List.range' attemptNo (remaining - 1)).map (retryDelay cfg),
         List.range' attemptNo remaining⟩ := by
  intro remaining
  induction remaining with
  | zero => intro attemptNo; rfl
  | succ n ih =>
      intro attemptNo
      simp only [retryGo, hall attemptNo]
      rw [if_pos hmem]
      cases n with
      | zero => simp [List.range']
      | succ m =>
          rw [if_neg (Nat.succ_ne_zero m)]
          simp only [ih]
          simp [List.range'_succ, Nat.succ_sub_one]

/-- C1: `get_fee_for_payment_method` applied to "bank transfer" returns
exactly the success dict with fee_percentage 0.01, and applied to
"unknown method" returns exactly the error dict whose message quotes the
method between apostrophes (codepoint 39). -/
theorem fee_lookup_concrete_values :
    get_fee_for_payment_method (strCodes "bank transfer") = .success (1/100) ∧
    get_fee_for_payment_method (strCodes "unknown method") =
      .error (strCodes "Payment method " ++ [39] ++ strCodes "unknown method" ++
        [39] ++ strCodes " not found") :=
  ⟨rfl, rfl⟩

/-- C2: `request_bulk_approval` with `num_images = 1` returns status approved
synchronously and requests no confirmation; with `num_images = 5` on a first
(unconfirmed) call it returns status pending and requests a confirmation with
populated hint and payload; and a resumed call with `confirmed = false`
returns status rejected, and the engine completes that resumption without
ever invoking `getTinyImage`. -/
theorem bulk_approval_scenarios :
    request_bulk_approval 1 none =
      (⟨.approved, strCodes "Auto-approved for 1 image."⟩, none) ∧
    request_bulk_approval 5 none =
      (⟨.pending, strCodes "Order for 5 images requires approval."⟩,
       some ⟨strCodes "⚠️ Bulk Order: 5 images requested. Approve cost?", 5⟩) ∧
    request_bulk_approval 5 (some ⟨false⟩) =
      (⟨.rejected, strCodes "Human rejected 5 images."⟩, none) ∧
    run_image_workflow_start 5 emptyEngine =
      (.suspended 0, ⟨[(0, 5)], [strCodes "request_bulk_approval"], 1⟩) ∧
    resumeWorkflow 0 false ⟨[(0, 5)], [strCodes "request_bulk_approval"], 1⟩ =
      .ok (.completed (strCodes "Human rejected 5 images."),
        ⟨[], [strCodes "request_bulk_approval", strCodes "request_bulk_approval"],
         1⟩) ∧
    strCodes "getTinyImage" ∉
      [strCodes "request_bulk_approval", strCodes "request_bulk_approval"] :=
  ⟨by decide, by decide, by decide, by decide, rfl, by decide⟩

/-- C9: `request_bulk_approval` auto-approves every request with
`num_images ≤ 1` — including 0 and negative values — returning the approved
dict and requesting no confirmation, whatever the tool-confirmation state. -/
theorem bulk_approval_auto_approves_le_one (n : Int)
    (tc : Option ToolConfirmation) (h : n ≤ 1) :
    request_bulk_approval n tc =
      (⟨.approved, strCodes "Auto-approved for " ++ intToCodes n ++
         strCodes " image."⟩, none) := by
  simp [request_bulk_approval, h]

/-- Witness for C9 at the concrete inputs 0 and -3. -/
theorem bulk_approval_auto_approves_le_one_witness :
    request_bulk_approval 0 none =
      (⟨.approved, strCodes "Auto-approved for " ++ intToCodes 0 ++
         strCodes " image."⟩, none) ∧
    request_bulk_approval (-3) none =
      (⟨.approved, strCodes "Auto-approved for " ++ intToCodes (-3) ++
         strCodes " image."⟩, none) :=
  ⟨bulk_approval_auto_approves_le_one 0 none (by decide),
   bulk_approval_auto_approves_le_one (-3) none (by decide)⟩

/-- C10 counterexample: the lookup tools are not literally invariant under
lowercasing their arguments — on a miss the error message echoes the
argument in its original case, so `get_fee_for_payment_method` applied to
"X" differs from its application to the lowercased "x". -/
theorem fee_lookup_not_lowercase_invariant :
    get_fee_for_payment_method (strCodes "X") ≠
      get_fee_for_payment_method (pyLower (strCodes "X")) := by
  decide

/-- C10 as amended: lowercasing the arguments of the lookup tools never
changes the `"status"` field nor the success result (the fee or rate); only
the echoed argument inside a miss's error message can differ. In all cases
the result is a status dict whose status is "success" or "error" (the
functions are total; no exception). -/
theorem lookup_lowercase_invariance_amended (method base target : List Nat) :
    statusCodes (get_fee_for_payment_method method) =
      statusCodes (get_fee_for_payment_method (pyLower method)) ∧
    (∀ q : ℚ, get_fee_for_payment_method method = .success q ↔
      get_fee_for_payment_method (pyLower method) = .success q) ∧
    (statusCodes (get_fee_for_payment_method method) = strCodes "success" ∨
      statusCodes (get_fee_for_payment_method method) = strCodes "error") ∧
    statusCodes (get_exchange_rate base target) =
      statusCodes (get_exchange_rate (pyLower base) (pyLower target)) ∧
    (∀ q : ℚ, get_exchange_rate base target = .success q ↔
      get_exchange_rate (pyLower base) (pyLower target) = .success q) ∧
    (statusCodes (get_exchange_rate base target) = strCodes "success" ∨
      statusCodes (get_exchange_rate base target) = strCodes "error") := by
  refine ⟨?_, ?_, ?_, ?_, ?_, ?_⟩
  · simp only [get_fee_for_payment_method, pyLower_idem]
    cases dictGet fee_database (pyLower method) <;> rfl
  · intro q
    simp only [get_fee_for_payment_method, pyLower_idem]
    cases dictGet fee_database (pyLower method) <;> simp
  · simp only [get_fee_for_payment_method]
    cases dictGet fee_database (pyLower method) <;> simp [statusCodes]
  · simp only [get_exchange_rate, pyLower_idem]
    cases dictGet ((dictGet rate_database (pyLower base)).getD [])
      (pyLower target) <;> rfl
  · intro q
    simp only [get_exchange_rate, pyLower_idem]
    cases dictGet ((dictGet rate_database (pyLower base)).getD [])
      (pyLower target) <;> simp
  · simp only [get_exchange_rate]
    cases dictGet ((dictGet rate_database (pyLower base)).getD [])
      (pyLower target) <;> simp [statusCodes]

/-- C3: suspend/resume round-trip equivalence — a workflow that suspends at
the approval tool call and is then resumed with `confirmed = true` reaches
the same final result as the run in which the tool synchronously returned the
approved outcome, and the resumption executes only the continuation (exactly
the resumed approval call and the `getTinyImage` call are appended to the
tool-call log; the work before the suspension is not redone). -/
theorem suspend_resume_roundtrip (num_images : Int) (st : EngineState)
    (h : 1 < num_images) :
    (run_image_workflow_start num_images st).1 = .suspended st.nextInvId ∧
    (resumeWorkflow st.nextInvId true
        (run_image_workflow_start num_images st).2).map Prod.fst =
      .ok (run_image_workflow_sync_approved num_images st).1 ∧
    (resumeWorkflow st.nextInvId true
        (run_image_workflow_start num_images st).2).map
        (fun p => p.2.toolCalls) =
      .ok ((run_image_workflow_start num_images st).2.toolCalls ++
        [strCodes "request_bulk_approval", strCodes "getTinyImage"]) := by
  have h1 : ¬ num_images = 1 := by omega
  have h2 : ¬ num_images ≤ 1 := by omega
  refine ⟨?_, ?_, ?_⟩ <;>
    simp [run_image_workflow_start, run_image_workflow_sync_approved,
      handleApproval, request_bulk_approval, resumeWorkflow, lookupSusp,
      removeSusp, Except.map, h, h1, h2]

/-- Witness for C3: the 5-image bulk order of the source demo, from a fresh
session. -/
theorem suspend_resume_roundtrip_witness :
    (run_image_workflow_start 5 emptyEngine).1 =
      .suspended emptyEngine.nextInvId ∧
    (resumeWorkflow emptyEngine.nextInvId true
        (run_image_workflow_start 5 emptyEngine).2).map Prod.fst =
      .ok (run_image_workflow_sync_approved 5 emptyEngine).1 ∧
    (resumeWorkflow emptyEngine.nextInvId true
        (run_image_workflow_start 5 emptyEngine).2).map
        (fun p => p.2.toolCalls) =
      .ok ((run_image_workflow_start 5 emptyEngine).2.toolCalls ++
        [strCodes "request_bulk_approval", strCodes "getTinyImage"]) :=
  suspend_resume_roundtrip 5 emptyEngine (by decide)

/-- C4: resuming with an invocation id that is unknown (no pending
Suspension Record) fails with `InvalidResumption` — the error carries no
state, so nothing is executed — and a successful resume consumes its
Suspension Record, so a second resume with the same id always fails with
`InvalidResumption` as well. -/
theorem resume_invalid_invocation (st : EngineState) (invId : Nat) (d : Bool) :
    (lookupSusp st.pendingSusp invId = none →
      resumeWorkflow invId d st = .error .invalidResumption) ∧
    (∀ (r : RunResult) (stR : EngineState) (d2 : Bool),
      resumeWorkflow invId d st = .ok (r, stR) →
      resumeWorkflow invId d2 stR = .error .invalidResumption) := by
  constructor
  · intro hnone
    unfold resumeWorkflow
    rw [hnone]
  · intro r stR d2 hok
    unfold resumeWorkflow at hok
    cases hl : lookupSusp st.pendingSusp invId with
    | none =>
        rw [hl] at hok
        exact absurd hok (by simp)
    | some n =>
        rw [hl] at hok
        have hp : handleApproval n (some ⟨d⟩)
            { st with pendingSusp := removeSusp st.pendingSusp invId } =
            (r, stR) := by
          injection hok
        have hnone : lookupSusp stR.pendingSusp invId = none := by
          have hps := handleApproval_resumed_pendingSusp n ⟨d⟩
            { st with pendingSusp := removeSusp st.pendingSusp invId }
          rw [hp] at hps
          rw [hps]
          exact lookupSusp_removeSusp st.pendingSusp invId
        unfold resumeWorkflow
        rw [hnone]

/-- Witness for C4: resuming id 3 against a coordinator holding only id 7
fails, and resuming id 7 again after it was consumed fails. -/
theorem resume_invalid_invocation_witness :
    resumeWorkflow 3 true ⟨[(7, 5)], [], 8⟩ = .error .invalidResumption ∧
    resumeWorkflow 7 false
      ⟨[], [strCodes "request_bulk_approval", strCodes "getTinyImage"], 8⟩ =
      .error .invalidResumption :=
  ⟨(resume_invalid_invocation ⟨[(7, 5)], [], 8⟩ 3 true).1 rfl,
   (resume_invalid_invocation ⟨[(7, 5)], [], 8⟩ 7 true).2
     (.completed (strCodes "Here is your image."))
     ⟨[], [strCodes "request_bulk_approval", strCodes "getTinyImage"], 8⟩
     false rfl⟩

/-- C5: with the source's `max_iterations = 2` and children that never emit
the termination signal (the critic never answers exactly "APPROVED", so
`exit_loop` is never called), the story-refinement loop executes exactly 2
cycles — never a 3rd. -/
theorem loop_two_cycles_no_signal (critic : List Nat → List Nat)
    (refine : List Nat → List Nat → List Nat)
    (h : ∀ story, critic story ≠ strCodes "APPROVED") (story : List Nat) :
    (runLoop (storyCycle critic refine) story_refinement_max_iterations
      story).2 = 2 := by
  have hs : ∀ s, (storyCycle critic refine s).2 = none := by
    intro s
    simp [storyCycle, h s]
  exact runLoop_no_signal _ hs 2 story

/-- Witness for C5: a critic that always asks for changes. -/
theorem loop_two_cycles_no_signal_witness :
    (runLoop (storyCycle (fun _ => strCodes "needs work") (fun s _ => s))
      story_refinement_max_iterations (strCodes "draft")).2 = 2 :=
  loop_two_cycles_no_signal (fun _ => strCodes "needs work") (fun s _ => s)
    (by intro story; show strCodes "needs work" ≠ strCodes "APPROVED"; decide)
    (strCodes "draft")

/-- C6: if the critique of the first cycle is exactly "APPROVED" — so the
refiner emits the termination signal by calling `exit_loop` during cycle 1 —
the loop completes after exactly 1 cycle, whatever its `max_iterations`
(any positive bound). -/
theorem loop_exit_signal_one_cycle (critic : List Nat → List Nat)
    (refine : List Nat → List Nat → List Nat) (max_iterations : Nat)
    (h1 : 1 ≤ max_iterations) (story : List Nat)
    (h2 : critic story = strCodes "APPROVED") :
    (runLoop (storyCycle critic refine) max_iterations story).2 = 1 := by
  obtain ⟨m, rfl⟩ : ∃ m, max_iterations = m + 1 :=
    ⟨max_iterations - 1, by omega⟩
  simp only [runLoop]
  simp [storyCycle, h2]

/-- Witness for C6: an immediately approving critic under a bound of 5. -/
theorem loop_exit_signal_one_cycle_witness :
    (runLoop (storyCycle (fun _ => strCodes "APPROVED") (fun s _ => s)) 5
      (strCodes "draft")).2 = 1 :=
  loop_exit_signal_one_cycle (fun _ => strCodes "APPROVED") (fun s _ => s) 5
    (by decide) (strCodes "draft") rfl

/-- C7: the merged state of a Parallel group does not depend on the
real-time completion order of its children — any two completion orders that
contain every declared child yield identical merged state, because deltas are
merged in declaration order. -/
theorem parallel_merge_completion_order_independent (snapshot : StateMap)
    (children : List ParallelChild) (o1 o2 : List Nat)
    (h1 : ∀ i ∈ List.range children.length, i ∈ o1)
    (h2 : ∀ i ∈ List.range children.length, i ∈ o2) :
    runParallel snapshot children o1 = runParallel snapshot children o2 := by
  unfold runParallel mergeParallel
  refine mergeFold_log_congr _ _ _ ?_ snapshot
  intro i hi
  have hilen : i < children.length := List.mem_range.mp hi
  rw [lookupLog_completionLog snapshot children o1 i hilen (h1 i hi),
      lookupLog_completionLog snapshot children o2 i hilen (h2 i hi)]

/-- Witness for C7: the three-researcher group of the source, completing in
declaration order versus finance-first order, from an empty snapshot. -/
theorem parallel_merge_completion_order_independent_witness :
    runParallel [] researchTeamChildren [0, 1, 2] =
      runParallel [] researchTeamChildren [2, 0, 1] :=
  parallel_merge_completion_order_independent [] researchTeamChildren
    [0, 1, 2] [2, 0, 1] (by decide) (by decide)

/-- C8: under the configured retry policy (attempts = 5, exp_base = 7,
initial_delay = 1, retryable codes 429/500/503/504), an invocation that keeps
failing with a retryable code is attempted exactly 5 times with backoff
delays `initial_delay * exp_base^(r-1)` before retry `r` (1, 7, 49, 343) and
then surfaces exhausted-retries; a failure with a non-retryable code
propagates immediately after the first attempt, with no retry and no delay. -/
theorem retry_policy_bounded_backoff (call : Nat → AttemptResult) :
    (∀ code, (∀ k, call k = .httpError code) →
      code ∈ retry_config.http_status_codes →
      invokeWithRetry retry_config call =
        ⟨.exhaustedRetries, [1, 2, 3, 4].map (retryDelay retry_config),
         [1, 2, 3, 4, 5]⟩) ∧
    (∀ code, call 1 = .httpError code →
      code ∉ retry_config.http_status_codes →
      invokeWithRetry retry_config call =
        ⟨.nonRetryableFailure code, [], [1]⟩) := by
  constructor
  · intro code hall hmem
    unfold invokeWithRetry
    rw [retryGo_all_fail retry_config call code hall hmem]
    decide
  · intro code h1 hmem
    unfold invokeWithRetry
    show retryGo retry_config call (4 + 1) 1 = _
    simp only [retryGo, h1]
    rw [if_neg hmem]

/-- Witness for C8: a call that always answers 429, and a call that answers
404 (non-retryable) at once. -/
theorem retry_policy_bounded_backoff_witness :
    invokeWithRetry retry_config (fun _ => .httpError 429) =
      ⟨.exhaustedRetries, [1, 2, 3, 4].map (retryDelay retry_config),
       [1, 2, 3, 4, 5]⟩ ∧
    invokeWithRetry retry_config (fun _ => .httpError 404) =
      ⟨.nonRetryableFailure 404, [], [1]⟩ :=
  ⟨(retry_policy_bounded_backoff (fun _ => .httpError 429)).1 429
     (fun _ => rfl) (by decide),
   (retry_policy_bounded_backoff (fun _ => .httpError 404)).2 404 rfl
     (by decide)⟩
